import Mathlib

/-!
# Portfolio Ledger Core — shallow embedding

Shallow embedding of the Express/MySQL backend of the Capital-Catalyst
portfolio manager (source: `index.js`, schema: `run_setup.sql`).

Modelling decisions, all taken from the source:
* The persistent store is the triple of tables `instruments`, `goals`,
  `trade_log`, modelled as Lean lists together with the `AUTO_INCREMENT`
  counters.  Timestamps (`created_at`, `updated_at`) carry no information any
  claim depends on and are omitted; row order in the lists stands in for
  insertion order.
* `DECIMAL` column values and JSON numbers are modelled as `Rat`.
* JavaScript truthiness tests (`!symbol`, `if (goal_id)`, `goal_id || null`)
  are modelled exactly: a missing field, the empty string, and the number `0`
  are falsy.
* Each route handler becomes one function `Store → HttpResult × Store`
  (extra inputs first).  Every SQL statement the handler issues is reflected
  in the state transformation; the handlers use no SQL transaction
  (`db.query` on an autocommitting pool), so each statement commits
  independently — `runCommitted` below exposes the intermediate states.
-/

/-- An instrument row (`instruments` table). -/
structure Instrument where
  id : Nat
  symbol : String
  name : String
  type : String
  current_price : Rat
  deriving DecidableEq, Repr

/-- A goal row (`goals` table). -/
structure Goal where
  id : Nat
  name : String
  target_amount : Rat
  deriving DecidableEq, Repr

/-- A trade-log row (`trade_log` table); `goal_id` is nullable. -/
structure TradeLogEntry where
  id : Nat
  instrument_id : Nat
  goal_id : Option Nat
  transaction_type : String
  quantity : Rat
  price : Rat
  total_amount : Rat
  deriving DecidableEq, Repr

/-- The persistent store: the three tables plus their AUTO_INCREMENT
counters. -/
structure Store where
  instruments : List Instrument
  goals : List Goal
  tradeLog : List TradeLogEntry
  nextInstrumentId : Nat
  nextGoalId : Nat
  nextTradeId : Nat
  deriving DecidableEq, Repr

/-- What a handler sends back: the HTTP status code and, for the error
responses, the `error` message of the JSON body. -/
structure HttpResult where
  status : Nat
  errMsg : Option String := none
  deriving DecidableEq, Repr

/-- JavaScript truthiness of an optional string field of a JSON body:
`!x` is true when the field is missing (`undefined`/`null`) or `""`. -/
def strFalsy : Option String → Bool
  | none => true
  | some v => v == ""

/-- JavaScript truthiness of an optional numeric field: `!x` is true when
the field is missing or `0`. -/
def numFalsy : Option Rat → Bool
  | none => true
  | some q => q == 0

/-- JavaScript truthiness of the optional `goal_id` field: `if (goal_id)`
is false when the field is missing, `null`, or `0`. -/
def goalTruthy : Option Nat → Bool
  | none => false
  | some g => g != 0

/-- The instrument category enumeration (`['STOCK', 'MF', 'GOLD']`). -/
def instrumentTypes : List String := ["STOCK", "MF", "GOLD"]

/-- The validation of `POST /instruments` and `PUT /instruments/:id`:
`!symbol || !name || !type || !current_price`, then
`!['STOCK','MF','GOLD'].includes(type)`.  Returns the error response the
handler sends, or `none` when validation passes. -/
def validateInstrumentBody (symbol name ty : Option String)
    (current_price : Option Rat) : Option HttpResult :=
  if strFalsy symbol || strFalsy name || strFalsy ty || numFalsy current_price then
    some { status := 400, errMsg := some "All fields are required" }
  else if !(instrumentTypes.contains (ty.getD "")) then
    some { status := 400, errMsg := some "Type must be STOCK, MF, or GOLD" }
  else
    none

/-- `POST /instruments`: validate, then
`INSERT INTO instruments (symbol, name, type, current_price)`. -/
def postInstruments (symbol name ty : Option String) (current_price : Option Rat)
    (s : Store) : HttpResult × Store :=
  match validateInstrumentBody symbol name ty current_price with
  | some r => (r, s)
  | none =>
    let row : Instrument :=
      { id := s.nextInstrumentId, symbol := symbol.getD "", name := name.getD "",
        type := ty.getD "", current_price := current_price.getD 0 }
    ({ status := 201 },
      { s with instruments := s.instruments ++ [row],
               nextInstrumentId := s.nextInstrumentId + 1 })

/-- `PUT /instruments/:id`: validate, then
`UPDATE instruments SET ... WHERE id = ?`; 404 when `affectedRows === 0`. -/
def putInstrument (id : Nat) (symbol name ty : Option String)
    (current_price : Option Rat) (s : Store) : HttpResult × Store :=
  match validateInstrumentBody symbol name ty current_price with
  | some r => (r, s)
  | none =>
    let affected := (s.instruments.filter (fun i => i.id == id)).length
    let s2 : Store :=
      { s with instruments := s.instruments.map (fun i =>
          if i.id == id then
            { i with symbol := symbol.getD "", name := name.getD "",
                     type := ty.getD "", current_price := current_price.getD 0 }
          else i) }
    if affected == 0 then ({ status := 404, errMsg := some "Instrument not found" }, s2)
    else ({ status := 200 }, s2)

/-- Error message of the instrument delete conflict response. -/
def instrumentConflictMsg : String :=
  "Cannot delete instrument with existing trade history. Please delete all related trade logs first or use ?cascade=true parameter."

/-- `DELETE /instruments/:id` with optional `cascade` query parameter:
counts referencing trade logs; if the count is positive and
`cascade === 'true'` it deletes the trade logs and then the instrument
(two separate autocommitted statements), otherwise it responds 400; with no
references it deletes the instrument directly. -/
def deleteInstrument (id : Nat) (cascade : Option String) (s : Store) :
    HttpResult × Store :=
  let cnt := (s.tradeLog.filter (fun e => e.instrument_id == id)).length
  if 0 < cnt then
    if cascade == some "true" then
      let s1 : Store := { s with tradeLog := s.tradeLog.filter (fun e => e.instrument_id != id) }
      let affected := (s1.instruments.filter (fun i => i.id == id)).length
      let s2 : Store := { s1 with instruments := s1.instruments.filter (fun i => i.id != id) }
      if affected == 0 then ({ status := 404, errMsg := some "Instrument not found" }, s2)
      else ({ status := 200 }, s2)
    else
      ({ status := 400, errMsg := some instrumentConflictMsg }, s)
  else
    let affected := (s.instruments.filter (fun i => i.id == id)).length
    let s2 : Store := { s with instruments := s.instruments.filter (fun i => i.id != id) }
    if affected == 0 then ({ status := 404, errMsg := some "Instrument not found" }, s2)
    else ({ status := 200 }, s2)

/-- `POST /goals`: `!name || !target_amount` then
`INSERT INTO goals (name, target_amount)`. -/
def postGoals (name : Option String) (target_amount : Option Rat) (s : Store) :
    HttpResult × Store :=
  if strFalsy name || numFalsy target_amount then
    ({ status := 400, errMsg := some "All fields are required" }, s)
  else
    let row : Goal :=
      { id := s.nextGoalId, name := name.getD "", target_amount := target_amount.getD 0 }
    ({ status := 201 },
      { s with goals := s.goals ++ [row], nextGoalId := s.nextGoalId + 1 })

/-- `PUT /goals/:id`: validate, `UPDATE goals SET ... WHERE id = ?`,
404 when `affectedRows === 0`. -/
def putGoal (id : Nat) (name : Option String) (target_amount : Option Rat)
    (s : Store) : HttpResult × Store :=
  if strFalsy name || numFalsy target_amount then
    ({ status := 400, errMsg := some "All fields are required" }, s)
  else
    let affected := (s.goals.filter (fun g => g.id == id)).length
    let s2 : Store :=
      { s with goals := s.goals.map (fun g =>
          if g.id == id then
            { g with name := name.getD "", target_amount := target_amount.getD 0 }
          else g) }
    if affected == 0 then ({ status := 404, errMsg := some "Goal not found" }, s2)
    else ({ status := 200 }, s2)

/-- Error message of the goal delete conflict response. -/
def goalConflictMsg : String :=
  "Cannot delete goal with existing trade history. Please delete all related trade logs first."

/-- `DELETE /goals/:id`: counts referencing trade logs and responds 400 when
the count is positive; otherwise `DELETE FROM goals WHERE id = ?`.  The
handler destructures only `req.params`; `query` models `req.query`, which
the handler never reads — there is no cascade branch. -/
def deleteGoal (id : Nat) (query : List (String × String)) (s : Store) :
    HttpResult × Store :=
  let cnt := (s.tradeLog.filter (fun e => e.goal_id == some id)).length
  if 0 < cnt then
    ({ status := 400, errMsg := some goalConflictMsg }, s)
  else
    let affected := (s.goals.filter (fun g => g.id == id)).length
    let s2 : Store := { s with goals := s.goals.filter (fun g => g.id != id) }
    if affected == 0 then ({ status := 404, errMsg := some "Goal not found" }, s2)
    else ({ status := 200 }, s2)

/-- The shared body of `POST /instruments/:id/buy` and
`POST /instruments/:id/sell` — the two source handlers are textually
identical except for the `transaction_type` literal, passed here as
`ttype`.  Checks, in source order: `!quantity || !price`;
`quantity <= 0 || price <= 0`; instrument row exists; `if (goal_id)` the
goal row exists; then inserts one trade_log row with
`goal_id || null` and `total_amount = quantity * price`. -/
def tradeHandler (ttype : String) (id : Nat) (quantity price : Option Rat)
    (goal_id : Option Nat) (s : Store) : HttpResult × Store :=
  if numFalsy quantity || numFalsy price then
    ({ status := 400, errMsg := some "quantity and price are required" }, s)
  else
    let q := quantity.getD 0
    let p := price.getD 0
    if q ≤ 0 ∨ p ≤ 0 then
      ({ status := 400, errMsg := some "quantity and price must be positive" }, s)
    else if (s.instruments.filter (fun i => i.id == id)).length == 0 then
      ({ status := 404, errMsg := some "Instrument not found" }, s)
    else if goalTruthy goal_id &&
        (s.goals.filter (fun g => g.id == goal_id.getD 0)).length == 0 then
      ({ status := 400, errMsg := some "Goal not found" }, s)
    else
      let e : TradeLogEntry :=
        { id := s.nextTradeId, instrument_id := id,
          goal_id := if goalTruthy goal_id then goal_id else none,
          transaction_type := ttype, quantity := q, price := p,
          total_amount := q * p }
      ({ status := 201 },
        { s with tradeLog := s.tradeLog ++ [e], nextTradeId := s.nextTradeId + 1 })

/-- `POST /instruments/:id/buy`: the trade handler with kind `BUY`. -/
def buyInstrument (id : Nat) (quantity price : Option Rat) (goal_id : Option Nat)
    (s : Store) : HttpResult × Store :=
  tradeHandler "BUY" id quantity price goal_id s

/-- `POST /instruments/:id/sell`: the trade handler with kind `SELL`. -/
def sellInstrument (id : Nat) (quantity price : Option Rat) (goal_id : Option Nat)
    (s : Store) : HttpResult × Store :=
  tradeHandler "SELL" id quantity price goal_id s

/-! ## JSON values at the HTTP boundary

The mysql2 driver (default configuration, as in `db.js`) returns `INT`
columns as JS numbers and `DECIMAL`/`NEWDECIMAL` columns as JS strings —
which is why every read handler in the source maps `Number(...)` over the
decimal fields before responding.  `JVal.decStr q` stands for the driver's
fixed-point string whose numeric content is `q`; its distinction from
`JVal.num q` is exactly the string-versus-number distinction the claims
are about. -/

/-- A JSON value in a response body. -/
inductive JVal where
  | num (q : Rat)
  | str (v : String)
  | decStr (q : Rat)
  | null
  deriving DecidableEq, Repr

/-- Whether a JSON value is a JS number. -/
def JVal.isNumber : JVal → Bool
  | .num _ => true
  | _ => false

/-- `Number(x)` as applied by the read handlers.  Every call site in the
source applies it to a non-null `DECIMAL` column value (a driver string);
on a number it is the identity. -/
def jsNumber : JVal → JVal
  | .decStr q => .num q
  | .num q => .num q
  | v => v

/-- The row produced by the trade-log join
(`SELECT tl.*, i.symbol .. , g.name .. FROM trade_log tl LEFT JOIN ...`)
exactly as the driver returns it: `INT` columns as numbers, `DECIMAL`
columns as driver strings, absent joins as null. -/
def rawTradeRow (s : Store) (e : TradeLogEntry) : List (String × JVal) :=
  [("id", .num (e.id : Rat)),
   ("instrument_id", .num (e.instrument_id : Rat)),
   ("goal_id", match e.goal_id with | some g => .num (g : Rat) | none => .null),
   ("transaction_type", .str e.transaction_type),
   ("quantity", .decStr e.quantity),
   ("price", .decStr e.price),
   ("total_amount", .decStr e.total_amount),
   ("instrument_symbol",
     match s.instruments.find? (fun i => i.id == e.instrument_id) with
     | some i => .str i.symbol | none => .null),
   ("instrument_name",
     match s.instruments.find? (fun i => i.id == e.instrument_id) with
     | some i => .str i.name | none => .null),
   ("instrument_type",
     match s.instruments.find? (fun i => i.id == e.instrument_id) with
     | some i => .str i.type | none => .null),
   ("goal_name",
     match e.goal_id.bind (fun gid => s.goals.find? (fun g => g.id == gid)) with
     | some g => .str g.name | none => .null)]

/-- The per-row conversion of `GET /trade-log`:
`{...row, quantity: Number(row.quantity), price: Number(row.price),
total_amount: Number(row.total_amount)}`. -/
def convertTradeRow (row : List (String × JVal)) : List (String × JVal) :=
  row.map (fun kv =>
    if kv.1 == "quantity" || kv.1 == "price" || kv.1 == "total_amount" then
      (kv.1, jsNumber kv.2)
    else kv)

/-- `GET /trade-log` response body: every joined row with the three decimal
fields converted to numbers.  (`ORDER BY created_at DESC` only permutes the
rows and is not modelled.) -/
def getTradeLog (s : Store) : List (List (String × JVal)) :=
  s.tradeLog.map (fun e => convertTradeRow (rawTradeRow s e))

/-- The 201 response body of the buy/sell handlers: the inserted row is
re-read through the same join and sent back AS the driver returned it —
the source applies no `Number(...)` conversion on this path
(`res.status(201).json(tradeLog[0])`). -/
def tradeRespBody (ttype : String) (id : Nat) (quantity price : Option Rat)
    (goal_id : Option Nat) (s : Store) : Option (List (String × JVal)) :=
  let r := tradeHandler ttype id quantity price goal_id s
  if r.1.status == 201 then r.2.tradeLog.getLast?.map (rawTradeRow r.2)
  else none

/-! ## Autocommit statement semantics of the cascade delete

The cascade branch of `DELETE /instruments/:id` issues
`DELETE FROM trade_log WHERE instrument_id = ?` and then
`DELETE FROM instruments WHERE id = ?` as two separate `db.query` calls on
an autocommitting pool — there is no `BEGIN`/`COMMIT`/`ROLLBACK` anywhere
in the repository.  Each statement therefore commits on its own, and an
error thrown by the second statement (caught by the handler's `catch`,
which responds 500) leaves the first statement's effect in place.
`runCommitted stmts k` is the store after the first `k` statements have
committed and the next one failed. -/

/-- A single SQL statement of the cascade-delete sequence. -/
inductive DbStmt where
  | delTradeLogs (instrument_id : Nat)
  | delInstrument (id : Nat)
  deriving DecidableEq, Repr

/-- Effect of one statement on the store. -/
def applyDbStmt : DbStmt → Store → Store
  | .delTradeLogs iid, s =>
      { s with tradeLog := s.tradeLog.filter (fun e => e.instrument_id != iid) }
  | .delInstrument i, s =>
      { s with instruments := s.instruments.filter (fun x => x.id != i) }

/-- The statement sequence of the cascade branch, in source order. -/
def cascadeDeleteStmts (id : Nat) : List DbStmt :=
  [.delTradeLogs id, .delInstrument id]

/-- The store after the first `k` statements committed (autocommit, no
transaction: a failure of statement `k+1` rolls nothing back). -/
def runCommitted (stmts : List DbStmt) (k : Nat) (s : Store) : Store :=
  (stmts.take k).foldl (fun st t => applyDbStmt t st) s

/-! ## The operations of the system, as one type

`ApiOp` enumerates every route of the source, each carrying the inputs its
handler reads; `applyOp` is the store after the handler ran to completion.
The read-only routes issue only `SELECT` statements and leave the store
unchanged. -/

/-- One API operation with its inputs. -/
inductive ApiOp where
  | listInstruments
  | getInstrument (id : Nat)
  | createInstrument (symbol name ty : Option String) (current_price : Option Rat)
  | updateInstrument (id : Nat) (symbol name ty : Option String) (current_price : Option Rat)
  | removeInstrument (id : Nat) (cascade : Option String)
  | listGoals
  | getGoal (id : Nat)
  | createGoal (name : Option String) (target_amount : Option Rat)
  | updateGoal (id : Nat) (name : Option String) (target_amount : Option Rat)
  | removeGoal (id : Nat) (query : List (String × String))
  | listTradeLog
  | buy (id : Nat) (quantity price : Option Rat) (goal_id : Option Nat)
  | sell (id : Nat) (quantity price : Option Rat) (goal_id : Option Nat)
  deriving DecidableEq, Repr

/-- The store after the operation's handler completed. -/
def applyOp : ApiOp → Store → Store
  | .listInstruments, s => s
  | .getInstrument _, s => s
  | .createInstrument sy n t p, s => (postInstruments sy n t p s).2
  | .updateInstrument i sy n t p, s => (putInstrument i sy n t p s).2
  | .removeInstrument i c, s => (deleteInstrument i c s).2
  | .listGoals, s => s
  | .getGoal _, s => s
  | .createGoal n t, s => (postGoals n t s).2
  | .updateGoal i n t, s => (putGoal i n t s).2
  | .removeGoal i q, s => (deleteGoal i q s).2
  | .listTradeLog, s => s
  | .buy i q p g, s => (tradeHandler "BUY" i q p g s).2
  | .sell i q p g, s => (tradeHandler "SELL" i q p g s).2

/-- The trade-log id discipline `AUTO_INCREMENT` maintains: every stored row
has an id below the counter, and ids are pairwise distinct. -/
def tradeIdsOk (s : Store) : Prop :=
  (∀ e ∈ s.tradeLog, e.id < s.nextTradeId) ∧ (s.tradeLog.map TradeLogEntry.id).Nodup

instance (s : Store) : Decidable (tradeIdsOk s) := by
  unfold tradeIdsOk; infer_instance

/-! ## Concrete sample data

A small store in the shape of `run_setup.sql`'s seed data, used as the
concrete input of witnesses and counterexamples. -/

/-- Sample instrument 1. -/
def relianceRow : Instrument :=
  { id := 1, symbol := "RELIANCE", name := "Reliance Industries Ltd",
    type := "STOCK", current_price := 2450 }

/-- Sample instrument 2, with no referencing trade log. -/
def tcsRow : Instrument :=
  { id := 2, symbol := "TCS", name := "Tata Consultancy Services",
    type := "STOCK", current_price := 3250 }

/-- Sample goal 1. -/
def retirementGoal : Goal :=
  { id := 1, name := "Retirement Fund", target_amount := 5000000 }

/-- Sample trade-log row referencing instrument 1 and goal 1. -/
def sampleTrade : TradeLogEntry :=
  { id := 1, instrument_id := 1, goal_id := some 1, transaction_type := "BUY",
    quantity := 10, price := 2400, total_amount := 24000 }

/-- A store holding the sample rows. -/
def sampleStore : Store :=
  { instruments := [relianceRow, tcsRow], goals := [retirementGoal],
    tradeLog := [sampleTrade],
    nextInstrumentId := 3, nextGoalId := 2, nextTradeId := 2 }

/-! ## Shared lemmas -/

/-- Rows with pairwise-distinct ids are determined by their id. -/
theorem eq_of_mem_id_nodup {l : List TradeLogEntry}
    (hnd : (l.map TradeLogEntry.id).Nodup) {e e₁ : TradeLogEntry}
    (he : e ∈ l) (he₁ : e₁ ∈ l) (hid : e₁.id = e.id) : e₁ = e := by
  induction l with
  | nil => cases he
  | cons a tl ih =>
    simp only [List.map_cons, List.nodup_cons, List.mem_map] at hnd
    rcases List.mem_cons.mp he with rfl | he'
    · rcases List.mem_cons.mp he₁ with rfl | he₁'
      · rfl
      · exact absurd (⟨e₁, he₁', hid⟩ : ∃ a ∈ tl, a.id = e.id) hnd.1
    · rcases List.mem_cons.mp he₁ with rfl | he₁'
      · exact absurd (⟨e, he', hid.symm⟩ : ∃ a ∈ tl, a.id = e₁.id) hnd.1
      · exact ih hnd.2 he' he₁'

/-- `POST /instruments` never touches the trade_log table. -/
theorem tradeLog_postInstruments (sy n t : Option String) (p : Option Rat) (s : Store) :
    (postInstruments sy n t p s).2.tradeLog = s.tradeLog := by
  unfold postInstruments; split <;> rfl

/-- `PUT /instruments/:id` never touches the trade_log table. -/
theorem tradeLog_putInstrument (i : Nat) (sy n t : Option String) (p : Option Rat) (s : Store) :
    (putInstrument i sy n t p s).2.tradeLog = s.tradeLog := by
  unfold putInstrument; split
  · rfl
  · dsimp only; split <;> rfl

/-- `POST /goals` never touches the trade_log table. -/
theorem tradeLog_postGoals (n : Option String) (t : Option Rat) (s : Store) :
    (postGoals n t s).2.tradeLog = s.tradeLog := by
  unfold postGoals; split <;> rfl

/-- `PUT /goals/:id` never touches the trade_log table. -/
theorem tradeLog_putGoal (i : Nat) (n : Option String) (t : Option Rat) (s : Store) :
    (putGoal i n t s).2.tradeLog = s.tradeLog := by
  unfold putGoal; split
  · rfl
  · dsimp only; split <;> rfl

/-- `DELETE /goals/:id` never touches the trade_log table. -/
theorem tradeLog_deleteGoal (i : Nat) (q : List (String × String)) (s : Store) :
    (deleteGoal i q s).2.tradeLog = s.tradeLog := by
  unfold deleteGoal; dsimp only; split
  · rfl
  · split <;> rfl

/-- `DELETE /instruments/:id` only ever removes trade_log rows. -/
theorem mem_tradeLog_deleteInstrument {i : Nat} {c : Option String} {s : Store}
    {e : TradeLogEntry} (h : e ∈ (deleteInstrument i c s).2.tradeLog) :
    e ∈ s.tradeLog := by
  unfold deleteInstrument at h
  dsimp only at h
  split at h
  · split at h
    · split at h <;>
        · dsimp only at h
          exact List.mem_of_mem_filter h
    · exact h
  · split at h <;> exact h

/-- A trade-log row present after a buy/sell was either already present or is
the freshly inserted row, carrying the `AUTO_INCREMENT` id. -/
theorem mem_tradeLog_tradeHandler {t : String} {i : Nat} {q p : Option Rat}
    {g : Option Nat} {s : Store} {e : TradeLogEntry}
    (h : e ∈ (tradeHandler t i q p g s).2.tradeLog) :
    e ∈ s.tradeLog ∨ e.id = s.nextTradeId := by
  unfold tradeHandler at h
  split at h
  · exact Or.inl h
  · dsimp only at h
    split at h
    · exact Or.inl h
    · split at h
      · exact Or.inl h
      · split at h
        · exact Or.inl h
        · rcases List.mem_append.mp h with h' | h'
          · exact Or.inl h'
          · right; simp only [List.mem_singleton] at h'; subst h'; rfl

/-! ## The claims -/

/-- Claim C1: the cascade delete is NOT atomic.  The handler issues the two
`DELETE` statements as separate autocommitted queries with no transaction,
so the execution in which the first statement commits and the second fails
(`runCommitted _ 1`) leaves every referencing trade-log row deleted while
the instrument remains — exactly the outcome the claim says no execution
can produce.  The second conjunct ties the statement model to the handler:
running both statements is the cascade branch's state. -/
theorem c1_cascade_delete_not_atomic :
    0 < (sampleStore.tradeLog.filter (fun e => e.instrument_id == 1)).length ∧
    (deleteInstrument 1 (some "true") sampleStore).2 =
      runCommitted (cascadeDeleteStmts 1) 2 sampleStore ∧
    ((runCommitted (cascadeDeleteStmts 1) 1 sampleStore).tradeLog.filter
        (fun e => e.instrument_id == 1)).length = 0 ∧
    0 < ((runCommitted (cascadeDeleteStmts 1) 1 sampleStore).instruments.filter
        (fun i => i.id == 1)).length := by decide

/-- Claim C2, counterexample: a strictly negative price is NOT rejected.
Creating an instrument with `current_price = -5` (not strictly positive)
passes validation — the handler only tests JS truthiness (`!current_price`),
which catches `0` and missing but not negatives — and the row is
inserted. -/
theorem c2_negative_price_accepted :
    ¬ (0 < (-5 : Rat)) ∧
    (postInstruments (some "XYZ") (some "XYZ Corp") (some "STOCK") (some (-5))
        sampleStore).1.status = 201 ∧
    (postInstruments (some "XYZ") (some "XYZ Corp") (some "STOCK") (some (-5))
        sampleStore).2.instruments =
      sampleStore.instruments ++
        [{ id := 3, symbol := "XYZ", name := "XYZ Corp", type := "STOCK",
           current_price := -5 }] := by decide

/-- Claim C2, amended: every create or update whose body has a missing or
empty symbol, name, or category, a missing or zero price, or a category
outside `STOCK`/`MF`/`GOLD` fails with the 400 validation response and
leaves the store unchanged (no row inserted or modified). -/
theorem c2_invalid_body_rejected (symbol name ty : Option String) (price : Option Rat)
    (id : Nat) (s : Store)
    (h : (strFalsy symbol || strFalsy name || strFalsy ty || numFalsy price) = true
        ∨ instrumentTypes.contains (ty.getD "") = false) :
    (postInstruments symbol name ty price s).1.status = 400 ∧
    (postInstruments symbol name ty price s).2 = s ∧
    (putInstrument id symbol name ty price s).1.status = 400 ∧
    (putInstrument id symbol name ty price s).2 = s := by
  unfold postInstruments putInstrument
  have hv : ∃ m, validateInstrumentBody symbol name ty price =
      some { status := 400, errMsg := some m } := by
    unfold validateInstrumentBody
    by_cases h1 : (strFalsy symbol || strFalsy name || strFalsy ty || numFalsy price) = true
    · exact ⟨"All fields are required", by simp [h1]⟩
    · rcases h with h' | h'
      · exact absurd h' h1
      · have h2 : ty.getD "" ∉ instrumentTypes := by simpa using h'
        exact ⟨"Type must be STOCK, MF, or GOLD", by simp [h1, h2]⟩
  obtain ⟨m, hm⟩ := hv
  simp [hm]

/-- Witness for `c2_invalid_body_rejected` at a body with a missing
symbol. -/
theorem c2_invalid_body_rejected_witness :
    ((strFalsy none || strFalsy (some "XYZ Corp") || strFalsy (some "STOCK") ||
        numFalsy (some 100)) = true ∨
      instrumentTypes.contains ((none : Option String).getD "") = false) ∧
    ((postInstruments none (some "XYZ Corp") (some "STOCK") (some 100) sampleStore).1.status = 400 ∧
      (postInstruments none (some "XYZ Corp") (some "STOCK") (some 100) sampleStore).2 = sampleStore ∧
      (putInstrument 1 none (some "XYZ Corp") (some "STOCK") (some 100) sampleStore).1.status = 400 ∧
      (putInstrument 1 none (some "XYZ Corp") (some "STOCK") (some 100) sampleStore).2 = sampleStore) :=
  ⟨Or.inl (by decide),
    c2_invalid_body_rejected none (some "XYZ Corp") (some "STOCK") (some 100) 1
      sampleStore (Or.inl (by decide))⟩

/-- Claim C4, counterexample: `goal_id = 0` is non-null and resolves to no
goal (no goal row has id 0), yet the buy succeeds with 201 and inserts a
trade-log row — the handler's `if (goal_id)` treats `0` as "not supplied",
so the referential check never runs and no `ValidationError` is raised. -/
theorem c4_goal_zero_not_rejected :
    (sampleStore.goals.filter (fun g => g.id == 0)).length = 0 ∧
    (buyInstrument 1 (some 2) (some 3) (some 0) sampleStore).1.status = 201 ∧
    (buyInstrument 1 (some 2) (some 3) (some 0) sampleStore).2.tradeLog.length =
      sampleStore.tradeLog.length + 1 := by decide

/-- Claim C4, amended: for every BUY or SELL request with positive quantity
and price against an existing instrument that supplies a nonzero (truthy)
`goal_id` resolving to no goal, the operation fails with the 400
"Goal not found" validation response — not a 404 — and no trade-log row is
created (the store is unchanged). -/
theorem c4_nonzero_missing_goal_rejected (s : Store) (id : Nat) (q p : Rat) (g : Nat)
    (hq : 0 < q) (hp : 0 < p)
    (hins : 0 < (s.instruments.filter (fun i => i.id == id)).length)
    (hg : g ≠ 0)
    (hgoal : (s.goals.filter (fun x => x.id == g)).length = 0) :
    buyInstrument id (some q) (some p) (some g) s =
      ({ status := 400, errMsg := some "Goal not found" }, s) ∧
    sellInstrument id (some q) (some p) (some g) s =
      ({ status := 400, errMsg := some "Goal not found" }, s) := by
  have key : ∀ t : String, tradeHandler t id (some q) (some p) (some g) s =
      ({ status := 400, errMsg := some "Goal not found" }, s) := by
    intro t
    unfold tradeHandler
    have hq0 : numFalsy (some q) = false := by simp [numFalsy, hq.ne']
    have hp0 : numFalsy (some p) = false := by simp [numFalsy, hp.ne']
    have hle : ¬ ((some q).getD 0 ≤ 0 ∨ (some p).getD 0 ≤ 0) := by
      simp [not_or, not_le, hq, hp]
    have hlen : ((s.instruments.filter (fun i => i.id == id)).length == 0) = false := by
      simp [Nat.pos_iff_ne_zero.mp hins]
    simp [hq0, hp0, hle, hlen, goalTruthy, hg, hgoal, hq, hp]
  exact ⟨key "BUY", key "SELL"⟩

/-- Witness for `c4_nonzero_missing_goal_rejected` at goal id 99, which no
goal row carries. -/
theorem c4_nonzero_missing_goal_rejected_witness :
    (0 < (2 : Rat) ∧ 0 < (3 : Rat) ∧
      0 < (sampleStore.instruments.filter (fun i => i.id == 1)).length ∧
      (99 : Nat) ≠ 0 ∧ (sampleStore.goals.filter (fun x => x.id == 99)).length = 0) ∧
    (buyInstrument 1 (some 2) (some 3) (some 99) sampleStore =
        ({ status := 400, errMsg := some "Goal not found" }, sampleStore) ∧
      sellInstrument 1 (some 2) (some 3) (some 99) sampleStore =
        ({ status := 400, errMsg := some "Goal not found" }, sampleStore)) :=
  ⟨⟨by decide, by decide, by decide, by decide, by decide⟩,
    c4_nonzero_missing_goal_rejected sampleStore 1 2 3 99
      (by decide) (by decide) (by decide) (by decide) (by decide)⟩

/-- Claim C5: the monetary fields of the buy/sell 201 response are NOT
numeric.  The handler re-reads the inserted row and sends the driver row
verbatim (`res.status(201).json(tradeLog[0])`), so `quantity`, `price` and
`total_amount` arrive as the driver's `DECIMAL` strings, while the
`GET /trade-log` projection of the very same row shape converts them with
`Number(...)` — the conversion step the claim requires is missing on the
trading path. -/
theorem c5_trade_response_monetary_not_numeric :
    ((tradeRespBody "BUY" 1 (some 10) (some 100) none sampleStore).map (fun row =>
        (row.filter (fun kv =>
          kv.1 == "quantity" || kv.1 == "price" || kv.1 == "total_amount")).map
          (fun kv => kv.2.isNumber)) = some [false, false, false]) ∧
    ((getTradeLog sampleStore).map (fun row =>
        (row.filter (fun kv =>
          kv.1 == "quantity" || kv.1 == "price" || kv.1 == "total_amount")).map
          (fun kv => kv.2.isNumber)) = [[true, true, true]]) := by decide

/-- Claim C6: deleting an instrument with at least one referencing
trade-log row and without `cascade=true` fails with the 400 conflict
response and returns the store completely unchanged. -/
theorem c6_delete_without_cascade_conflict (s : Store) (id : Nat) (c : Option String)
    (hcnt : 0 < (s.tradeLog.filter (fun e => e.instrument_id == id)).length)
    (hc : c ≠ some "true") :
    deleteInstrument id c s = ({ status := 400, errMsg := some instrumentConflictMsg }, s) := by
  unfold deleteInstrument
  simp [hcnt, hc]

/-- Witness for `c6_delete_without_cascade_conflict` with no cascade
parameter supplied. -/
theorem c6_delete_without_cascade_conflict_witness :
    0 < (sampleStore.tradeLog.filter (fun e => e.instrument_id == 1)).length ∧
    deleteInstrument 1 none sampleStore =
      ({ status := 400, errMsg := some instrumentConflictMsg }, sampleStore) :=
  ⟨by decide, c6_delete_without_cascade_conflict sampleStore 1 none (by decide) (by decide)⟩

/-- Claim C7: deleting a goal with at least one referencing trade-log row
always fails with the 400 conflict response and changes nothing — for every
query string, since the handler never reads `req.query` and has no cascade
override. -/
theorem c7_goal_delete_always_conflict (s : Store) (id : Nat)
    (query : List (String × String))
    (hcnt : 0 < (s.tradeLog.filter (fun e => e.goal_id == some id)).length) :
    deleteGoal id query s = ({ status := 400, errMsg := some goalConflictMsg }, s) := by
  unfold deleteGoal
  simp [hcnt]

/-- Witness for `c7_goal_delete_always_conflict`, supplying a
`cascade=true` query that the handler ignores. -/
theorem c7_goal_delete_always_conflict_witness :
    0 < (sampleStore.tradeLog.filter (fun e => e.goal_id == some 1)).length ∧
    deleteGoal 1 [("cascade", "true")] sampleStore =
      ({ status := 400, errMsg := some goalConflictMsg }, sampleStore) :=
  ⟨by decide, c7_goal_delete_always_conflict sampleStore 1 [("cascade", "true")] (by decide)⟩

/-- Claim C8: trade-log rows are append-only.  For every operation of the
system and every row (identified by its id, which `AUTO_INCREMENT` keeps
distinct and below the counter) present both before and after the
operation, the row is unchanged in every field: operations only ever insert
fresh rows (buy/sell) or delete rows (cascade delete), never update one. -/
theorem c8_trade_log_append_only (op : ApiOp) (s : Store) (e e₁ : TradeLogEntry)
    (hwf : tradeIdsOk s) (he : e ∈ s.tradeLog)
    (he₁ : e₁ ∈ (applyOp op s).tradeLog) (hid : e₁.id = e.id) : e₁ = e := by
  obtain ⟨hbound, hnd⟩ := hwf
  have fresh : e₁.id = s.nextTradeId → False := fun hf =>
    absurd (hid ▸ hf) (Nat.ne_of_lt (hbound e he))
  cases op with
  | listInstruments => exact eq_of_mem_id_nodup hnd he he₁ hid
  | getInstrument i => exact eq_of_mem_id_nodup hnd he he₁ hid
  | createInstrument sy n t p =>
      simp only [applyOp, tradeLog_postInstruments] at he₁
      exact eq_of_mem_id_nodup hnd he he₁ hid
  | updateInstrument i sy n t p =>
      simp only [applyOp, tradeLog_putInstrument] at he₁
      exact eq_of_mem_id_nodup hnd he he₁ hid
  | removeInstrument i c =>
      simp only [applyOp] at he₁
      exact eq_of_mem_id_nodup hnd he (mem_tradeLog_deleteInstrument he₁) hid
  | listGoals => exact eq_of_mem_id_nodup hnd he he₁ hid
  | getGoal i => exact eq_of_mem_id_nodup hnd he he₁ hid
  | createGoal n t =>
      simp only [applyOp, tradeLog_postGoals] at he₁
      exact eq_of_mem_id_nodup hnd he he₁ hid
  | updateGoal i n t =>
      simp only [applyOp, tradeLog_putGoal] at he₁
      exact eq_of_mem_id_nodup hnd he he₁ hid
  | removeGoal i q =>
      simp only [applyOp, tradeLog_deleteGoal] at he₁
      exact eq_of_mem_id_nodup hnd he he₁ hid
  | listTradeLog => exact eq_of_mem_id_nodup hnd he he₁ hid
  | buy i q p g =>
      simp only [applyOp] at he₁
      rcases mem_tradeLog_tradeHandler he₁ with h' | h'
      · exact eq_of_mem_id_nodup hnd he h' hid
      · exact absurd h' fresh
  | sell i q p g =>
      simp only [applyOp] at he₁
      rcases mem_tradeLog_tradeHandler he₁ with h' | h'
      · exact eq_of_mem_id_nodup hnd he h' hid
      · exact absurd h' fresh

/-- Witness for `c8_trade_log_append_only`: the pre-existing sample row
survives a buy on instrument 2 unchanged. -/
theorem c8_trade_log_append_only_witness :
    (tradeIdsOk sampleStore ∧ sampleTrade ∈ sampleStore.tradeLog ∧
      sampleTrade ∈ (applyOp (.buy 2 (some 2) (some 3) none) sampleStore).tradeLog ∧
      sampleTrade.id = sampleTrade.id) ∧
    sampleTrade = sampleTrade :=
  ⟨⟨by decide, by decide, by decide, rfl⟩,
    c8_trade_log_append_only (.buy 2 (some 2) (some 3) none) sampleStore
      sampleTrade sampleTrade (by decide) (by decide) (by decide) rfl⟩

/-- Claim C9: a BUY or SELL that supplies `goal_id = 0` skips the
goal-existence check — no hypothesis about the goals table is needed — and
inserts its trade-log row with a null (`none`) goal reference, succeeding
with 201 rather than failing validation. -/
theorem c9_goal_id_zero_skips_check (s : Store) (id : Nat) (q p : Rat)
    (hq : 0 < q) (hp : 0 < p)
    (hins : 0 < (s.instruments.filter (fun i => i.id == id)).length) :
    ∀ t : String, tradeHandler t id (some q) (some p) (some 0) s =
      ({ status := 201 },
       { s with
          tradeLog := s.tradeLog ++
            [{ id := s.nextTradeId, instrument_id := id, goal_id := none,
               transaction_type := t, quantity := q, price := p,
               total_amount := q * p }],
          nextTradeId := s.nextTradeId + 1 }) := by
  intro t
  unfold tradeHandler
  have hq0 : numFalsy (some q) = false := by simp [numFalsy, hq.ne']
  have hp0 : numFalsy (some p) = false := by simp [numFalsy, hp.ne']
  have hle : ¬ ((some q).getD 0 ≤ 0 ∨ (some p).getD 0 ≤ 0) := by
    simp [not_or, not_le, hq, hp]
  have hlen : ((s.instruments.filter (fun i => i.id == id)).length == 0) = false := by
    simp [Nat.pos_iff_ne_zero.mp hins]
  simp [hq0, hp0, hle, hlen, goalTruthy, hq, hp]

/-- Witness for `c9_goal_id_zero_skips_check`: a BUY with `goal_id = 0`
against the sample store, whose goals table has no id 0. -/
theorem c9_goal_id_zero_skips_check_witness :
    (0 < (2 : Rat) ∧ 0 < (3 : Rat) ∧
      0 < (sampleStore.instruments.filter (fun i => i.id == 1)).length) ∧
    tradeHandler "BUY" 1 (some 2) (some 3) (some 0) sampleStore =
      ({ status := 201 },
       { sampleStore with
          tradeLog := sampleStore.tradeLog ++
            [{ id := sampleStore.nextTradeId, instrument_id := 1, goal_id := none,
               transaction_type := "BUY", quantity := 2, price := 3,
               total_amount := 2 * 3 }],
          nextTradeId := sampleStore.nextTradeId + 1 }) :=
  ⟨⟨by decide, by decide, by decide⟩,
    c9_goal_id_zero_skips_check sampleStore 1 2 3 (by decide) (by decide) (by decide) "BUY"⟩

/-- Claim C10: with at least one referencing trade-log row, the instrument
delete responds with the conflict error and leaves the store untouched
exactly when the cascade parameter is anything other than the literal
string "true" — so supplying "True", "1", or nothing all conflict, and only
the exact string "true" takes the cascade branch. -/
theorem c10_cascade_iff_literal_true (s : Store) (id : Nat) (c : Option String)
    (hcnt : 0 < (s.tradeLog.filter (fun e => e.instrument_id == id)).length) :
    deleteInstrument id c s = ({ status := 400, errMsg := some instrumentConflictMsg }, s)
      ↔ c ≠ some "true" := by
  constructor
  · intro h hc
    subst hc
    unfold deleteInstrument at h
    simp [hcnt] at h
    split at h <;> simp_all
  · intro hc
    unfold deleteInstrument
    simp [hcnt, hc]

/-- Witness for `c10_cascade_iff_literal_true` at the capitalised value
"True", which does not take the cascade branch. -/
theorem c10_cascade_iff_literal_true_witness :
    0 < (sampleStore.tradeLog.filter (fun e => e.instrument_id == 1)).length ∧
    deleteInstrument 1 (some "True") sampleStore =
      ({ status := 400, errMsg := some instrumentConflictMsg }, sampleStore) :=
  ⟨by decide, (c10_cascade_iff_literal_true sampleStore 1 (some "True") (by decide)).mpr (by decide)⟩
